/-
Verification development for the Alfa_Eta_Dashboard telemetry pipeline.

The C sources are shallowly embedded:
  * C `int` is modelled as `Int`; C `int` division truncates toward zero, so it
    is embedded as `Int.tdiv`.  C leaves signed division by zero undefined; the
    Cortex-M4 target's `SDIV` instruction yields 0 in that case, as does
    `Int.tdiv`, and the embedding adopts that value.
  * C `float`/`double` values are modelled as exact rationals `ℚ`.  The
    transcendental library calls (`sinf`, `cosf`, `sqrtf`, `atan2f`, `atan2`)
    and the constant `M_PI` have no exact rational counterpart, so they are
    abstracted as a record of function parameters (`FloatOps`); every theorem
    that depends on them either holds for all such records or assumes only the
    mathematical range facts used by the source (for instance that `atan2`
    yields a value in `(-pi, pi]`).
  * The file-scope mutable statics of each C translation unit are gathered in
    explicit state records that the embedded functions take and return.
  * UART traffic is made explicit: received bytes are an input `List Char`,
    transmitted display commands are collected in an output trace list.
-/
import Mathlib

/-! ## C arithmetic primitives -/

/-- C integer division: truncation toward zero (`Int.tdiv`).  Division by zero
is undefined behaviour in C; the target hardware yields 0, as does `Int.tdiv`,
and the embedding uses that value. -/
def cdiv (a b : Int) : Int := a.tdiv b

/-- C cast of a floating value to `int`: truncation toward zero. -/
def ctrunc (q : ℚ) : Int := q.num.tdiv q.den

/-! ## mapping.c -/

/-- mapping.c `Map_Int` (lines 52-58): linear rescale of an integer from
`[in_min, in_max]` to `[out_min, out_max]` with C integer division.  The
source contains no guard whatsoever: when `in_max == in_min` the division by
zero simply happens (undefined behaviour in C, value 0 in this embedding). -/
def Map_Int (input in_min in_max out_min out_max : Int) : Int :=
  let input_range := in_max - in_min
  let output_range := out_max - out_min
  cdiv ((input - in_min) * output_range) input_range + out_min

/-- mapping.c `Map_Float` (lines 77-83): linear rescale over floats, embedded
over exact rationals.  Again there is no guard: for `in_max == in_min` the C
code divides by zero, producing an IEEE infinity or NaN; the total rational
division of the embedding yields 0 there, so the function returns `out_min`.
Either way no error is signalled. -/
def Map_Float (input in_min in_max out_min out_max : ℚ) : ℚ :=
  let input_range := in_max - in_min
  let ref_range := out_max - out_min
  ((ref_range * (input - in_min)) / input_range) + out_min

/-- Helper: truncating division by a positive divisor is monotone on
nonnegative numerators. -/
lemma tdiv_le_tdiv_right {a b d : Int} (hd : 0 < d) (ha : 0 ≤ a) (hab : a ≤ b) :
    a.tdiv d ≤ b.tdiv d := by
  rw [Int.tdiv_eq_ediv ha hd.le, Int.tdiv_eq_ediv (ha.trans hab) hd.le]
  exact Int.ediv_le_ediv hd hab

/-- C2 counterexample: the claim says the mappers surface an explicit error on
equal bounds and that this error branch is the only behaviour there.  In the
source there is no branch at all: with `in_min = in_max = 3` both mappers
divide by zero (undefined behaviour for `Map_Int`, an IEEE non-finite value
for `Map_Float`; value 0 in this embedding, as on the target hardware) and
return the ordinary, garbage value `out_min = 7` — no error is surfaced. -/
theorem C2_counterexample :
    Map_Int 5 3 3 7 100 = 7 ∧ Map_Float 5 3 3 7 100 = 7 := by
  refine ⟨by decide, ?_⟩
  norm_num [Map_Float]

/-- C2 (amended): for every call with `in_max = in_min`, neither `Map_Int` nor
`Map_Float` takes any error branch; each performs the division with a zero
divisor (undefined behaviour / non-finite in C, yielding 0 here) and returns
the garbage ordinary value `out_min`.  The caller must guard equal bounds, as
the source's own doc comment demands. -/
theorem C2_equal_bounds_no_guard (input in_min in_max out_min out_max : Int)
    (inputq in_minq in_maxq out_minq out_maxq : ℚ)
    (h : in_max = in_min) (hq : in_maxq = in_minq) :
    Map_Int input in_min in_max out_min out_max = out_min ∧
    Map_Float inputq in_minq in_maxq out_minq out_maxq = out_minq := by
  subst h; subst hq
  constructor
  · simp [Map_Int, cdiv, Int.tdiv_zero]
  · simp [Map_Float]

/-- C2 witness: the amended theorem applied at concrete equal bounds. -/
theorem C2_equal_bounds_no_guard_witness :
    (3 : Int) = 3 ∧ (5 : ℚ) = 5 ∧
      (Map_Int 9 3 3 42 100 = 42 ∧ Map_Float 2 5 5 (1/2) 100 = 1/2) :=
  ⟨rfl, rfl, C2_equal_bounds_no_guard 9 3 3 42 100 2 5 5 (1/2) 100 rfl rfl⟩

/-- C8: with strictly ordered input bounds, both mappers send `in_min` to
`out_min` and `in_max` to `out_max`, and on `[in_min, in_max]` they are
monotone (nondecreasing when the output range is ordered upward, nonincreasing
when it is ordered downward — "monotonic in the input" either way). -/
theorem C8_range_mapper_endpoints_monotone
    (in_min in_max out_min out_max : Int)
    (in_minq in_maxq out_minq out_maxq : ℚ)
    (h : in_min < in_max) (hq : in_minq < in_maxq) :
    Map_Int in_min in_min in_max out_min out_max = out_min ∧
    Map_Int in_max in_min in_max out_min out_max = out_max ∧
    (∀ x y : Int, in_min ≤ x → x ≤ y → y ≤ in_max →
      (out_min ≤ out_max →
        Map_Int x in_min in_max out_min out_max ≤
          Map_Int y in_min in_max out_min out_max) ∧
      (out_max ≤ out_min →
        Map_Int y in_min in_max out_min out_max ≤
          Map_Int x in_min in_max out_min out_max)) ∧
    Map_Float in_minq in_minq in_maxq out_minq out_maxq = out_minq ∧
    Map_Float in_maxq in_minq in_maxq out_minq out_maxq = out_maxq ∧
    (∀ x y : ℚ, in_minq ≤ x → x ≤ y → y ≤ in_maxq →
      (out_minq ≤ out_maxq →
        Map_Float x in_minq in_maxq out_minq out_maxq ≤
          Map_Float y in_minq in_maxq out_minq out_maxq) ∧
      (out_maxq ≤ out_minq →
        Map_Float y in_minq in_maxq out_minq out_maxq ≤
          Map_Float x in_minq in_maxq out_minq out_maxq)) := by
  have hd : (0 : Int) < in_max - in_min := by omega
  have hdq : (0 : ℚ) < in_maxq - in_minq := by linarith
  refine ⟨?_, ?_, ?_, ?_, ?_, ?_⟩
  · simp [Map_Int, cdiv]
  · show cdiv ((in_max - in_min) * (out_max - out_min)) (in_max - in_min) + out_min = out_max
    rw [cdiv, Int.mul_tdiv_cancel_left _ (by omega)]
    omega
  · intro x y hx hxy hy
    constructor
    · intro hout
      have hnum : (x - in_min) * (out_max - out_min) ≤
          (y - in_min) * (out_max - out_min) :=
        mul_le_mul_of_nonneg_right (by omega) (by omega)
      have := tdiv_le_tdiv_right hd
        (mul_nonneg (by omega) (by omega)) hnum
      simpa [Map_Int, cdiv] using add_le_add_right this out_min
    · intro hout
      have hnum : (x - in_min) * (out_min - out_max) ≤
          (y - in_min) * (out_min - out_max) :=
        mul_le_mul_of_nonneg_right (by omega) (by omega)
      have h2 := tdiv_le_tdiv_right hd
        (mul_nonneg (by omega) (by omega)) hnum
      have hx' : (x - in_min) * (out_max - out_min) =
          -((x - in_min) * (out_min - out_max)) := by ring
      have hy' : (y - in_min) * (out_max - out_min) =
          -((y - in_min) * (out_min - out_max)) := by ring
      have : ((y - in_min) * (out_max - out_min)).tdiv (in_max - in_min) ≤
          ((x - in_min) * (out_max - out_min)).tdiv (in_max - in_min) := by
        rw [hx', hy', Int.neg_tdiv, Int.neg_tdiv]
        omega
      simpa [Map_Int, cdiv] using add_le_add_right this out_min
  · simp [Map_Float]
  · show (out_maxq - out_minq) * (in_maxq - in_minq) / (in_maxq - in_minq)
        + out_minq = out_maxq
    rw [mul_div_assoc, div_self (ne_of_gt hdq)]
    ring
  · intro x y hx hxy hy
    constructor
    · intro hout
      have hnum : (out_maxq - out_minq) * (x - in_minq) ≤
          (out_maxq - out_minq) * (y - in_minq) :=
        mul_le_mul_of_nonneg_left (by linarith) (by linarith)
      exact add_le_add_right ((div_le_div_iff_of_pos_right hdq).2 hnum) out_minq
    · intro hout
      have hnum : (out_maxq - out_minq) * (y - in_minq) ≤
          (out_maxq - out_minq) * (x - in_minq) :=
        mul_le_mul_of_nonpos_left (by linarith) (by linarith)
      exact add_le_add_right ((div_le_div_iff_of_pos_right hdq).2 hnum) out_minq

/-- C8 witness: endpoints and monotonicity at concrete bounds
`[0,10] → [0,100]` (integer) and `[0,2] → [0,1]` (rational). -/
theorem C8_range_mapper_witness :
    (0 : Int) < 10 ∧ (0 : ℚ) < 2 ∧
      (Map_Int 0 0 10 0 100 = 0 ∧ Map_Int 10 0 10 0 100 = 100 ∧
        Map_Float 0 0 2 0 1 = 0 ∧ Map_Float 2 0 2 0 1 = 1 ∧
        Map_Int 3 0 10 0 100 ≤ Map_Int 7 0 10 0 100) := by
  have h := C8_range_mapper_endpoints_monotone 0 10 0 100 0 2 0 1
    (by decide) (by norm_num)
  refine ⟨by decide, by norm_num, h.1, h.2.1, h.2.2.2.1, h.2.2.2.2.1, ?_⟩
  exact (h.2.2.1 3 7 (by decide) (by decide) (by decide)).1 (by decide)

/-! ## geo_to_pixel.c : data model -/

/-- geo_to_pixel.h `MapOffset`: the shared map state record. -/
structure MapOffset where
  PixelX : Int
  PixelY : Int
  IconAngle : Int
  Lap : Int
deriving DecidableEq

/-- geo_to_pixel.h `GPS_Data`: raw, last-accepted and filtered coordinates
plus speed, all C floats modelled as rationals. -/
structure GPS_Data where
  raw_lat : ℚ
  raw_lon : ℚ
  last_lat : ℚ
  last_lon : ℚ
  filtered_lat : ℚ
  filtered_lon : ℚ
  speed : ℚ
deriving DecidableEq

/-- geo_to_pixel.h `GPS_Checkpoint`: a checkpoint's reached flag (uint8_t used
as 0/1, modelled as `Bool`) and coordinates. -/
structure GPS_Checkpoint where
  status : Bool
  lat : ℚ
  lon : ℚ
deriving DecidableEq

/-- The file statics of the lap tracker: the three-element `Checkpoints`
array (checkpoint 0 is the start/finish line) and the `Is_Lap_Started` flag. -/
structure LapTracker where
  cp0 : GPS_Checkpoint
  cp1 : GPS_Checkpoint
  cp2 : GPS_Checkpoint
  started : Bool
deriving DecidableEq

/-- Abstraction of the transcendental C library functions used by
geo_to_pixel.c (`sinf`, `cosf`, `sqrtf`, `atan2f`/`atan2`) and of the
constant `M_PI`.  Exact real trigonometry has no computable rational
embedding, so the functions are parameters; theorems either hold for every
such record or assume only the range facts the source relies on. -/
structure FloatOps where
  sin : ℚ → ℚ
  cos : ℚ → ℚ
  sqrt : ℚ → ℚ
  atan2 : ℚ → ℚ → ℚ
  pi : ℚ

/-! ## geo_to_pixel.c : configuration constants (geo_to_pixel.h) -/

def MAP_X_SIZE : ℚ := 800
def MAP_Y_SIZE : ℚ := 750
def ICON_WIDTH : Int := 67
def ICON_HEIGHT : Int := 67
def ICON_X : Int := 640
def ICON_Y : Int := 201
def MAP_X_MIN_VAL : Int := 0
def MAP_X_MAX_VAL : Int := 450
def MAP_Y_MIN_VAL : Int := -270
def MAP_Y_MAX_VAL : Int := 0
def NW_lat : ℚ := 40.809190303
def NW_lon : ℚ := 29.353690785
def SE_lat : ℚ := 40.80401074
def SE_lon : ℚ := 29.36103314
def GPS_BUFFER_SIZE : Nat := 100

/-! ## geo_to_pixel.c : position filter -/

/-- geo_to_pixel.c `GPS_CalcDistance` (lines 327-339): Haversine great-circle
distance in meters, Earth radius 6 371 000 m, with the trigonometric calls
taken from the `FloatOps` parameter. -/
def GPS_CalcDistance (ops : FloatOps) (lat1 lon1 lat2 lon2 : ℚ) : ℚ :=
  let R : ℚ := 6371000
  let dLat := (lat2 - lat1) * (ops.pi / 180)
  let dLon := (lon2 - lon1) * (ops.pi / 180)
  let a := ops.sin (dLat / 2) * ops.sin (dLat / 2) +
    ops.cos (lat1 * ops.pi / 180) * ops.cos (lat2 * ops.pi / 180) *
    ops.sin (dLon / 2) * ops.sin (dLon / 2)
  let c := 2 * ops.atan2 (ops.sqrt a) (ops.sqrt (1 - a))
  R * c

/-- geo_to_pixel.c `GPS_Filter` (lines 297-314): deadband filter.  If the
distance between the raw fix and the last accepted position is below 3 m the
filtered position is held at the last accepted one; otherwise the raw fix
becomes both the filtered and the last accepted position. -/
def GPS_Filter (ops : FloatOps) (gps : GPS_Data) : GPS_Data :=
  let dist := GPS_CalcDistance ops gps.raw_lat gps.raw_lon gps.last_lat gps.last_lon
  if dist < 3 then
    { gps with filtered_lat := gps.last_lat, filtered_lon := gps.last_lon }
  else
    { gps with filtered_lat := gps.raw_lat, filtered_lon := gps.raw_lon,
               last_lat := gps.raw_lat, last_lon := gps.raw_lon }

/-! ## geo_to_pixel.c : geo-to-screen mapping and heading -/

/-- geo_to_pixel.c `Get_Map_Draw_Position` (lines 371-390): viewport offset
plus hard clamping of both pixel coordinates into
`[MAP_X_MIN_VAL, MAP_X_MAX_VAL]` and `[MAP_Y_MIN_VAL, MAP_Y_MAX_VAL]`. -/
def Get_Map_Draw_Position (m : MapOffset) (gpsPixelX gpsPixelY : Int) : MapOffset :=
  let pixelX := ICON_X + cdiv ICON_WIDTH 2 - gpsPixelX
  let pixelX := if pixelX < MAP_X_MIN_VAL then MAP_X_MIN_VAL
    else if pixelX > MAP_X_MAX_VAL then MAP_X_MAX_VAL else pixelX
  let pixelY := ICON_Y + cdiv ICON_HEIGHT 2 - gpsPixelY
  let pixelY := if pixelY < MAP_Y_MIN_VAL then MAP_Y_MIN_VAL
    else if pixelY > MAP_Y_MAX_VAL then MAP_Y_MAX_VAL else pixelY
  { m with PixelX := pixelX, PixelY := pixelY }

/-- geo_to_pixel.c `Calculate_Geo_To_Pixel` (lines 346-354): map the filtered
longitude/latitude linearly into the map's pixel grid with `Map_Float`,
truncate to `int`, and hand over to `Get_Map_Draw_Position`. -/
def Calculate_Geo_To_Pixel (m : MapOffset) (gps : GPS_Data) : MapOffset :=
  let mappedX := ctrunc (Map_Float gps.filtered_lon NW_lon SE_lon 0 MAP_X_SIZE)
  let mappedY := ctrunc (Map_Float gps.filtered_lat NW_lat SE_lat 0 MAP_Y_SIZE)
  Get_Map_Draw_Position m mappedX mappedY

/-- geo_to_pixel.c `Calculate_Icon_Angle` (lines 411-430): when the pixel
position changed, derive the icon heading from `atan2` of the pixel delta,
shift by 180 degrees so that 0 means west, normalize into `[0, 360)` with the
two conditional corrections of the source, store it (C truncates the double
to `int` on assignment), and update the cached previous pixel position.
Returns the updated `_mapData` and `_mapCachedData`. -/
def Calculate_Icon_Angle (ops : FloatOps) (cached m : MapOffset) :
    MapOffset × MapOffset :=
  if cached.PixelX ≠ m.PixelX ∨ cached.PixelY ≠ m.PixelY then
    let angle_rad := ops.atan2 ((cached.PixelY - m.PixelY : Int) : ℚ)
      ((cached.PixelX - m.PixelX : Int) : ℚ)
    let angle_deg := angle_rad * (180 / ops.pi)
    let angle_deg := angle_deg + 180
    let angle_deg := if angle_deg < 0 then angle_deg + 360 else angle_deg
    let angle_deg := if angle_deg ≥ 360 then angle_deg - 360 else angle_deg
    ({ m with IconAngle := ctrunc angle_deg },
     { cached with PixelX := m.PixelX, PixelY := m.PixelY })
  else (m, cached)

/-! ## geo_to_pixel.c : lap tracker -/

/-- geo_to_pixel.c `Is_Lap_Complete` (lines 508-514): true iff every
checkpoint's status flag is set. -/
def Is_Lap_Complete (t : LapTracker) : Bool :=
  t.cp0.status && t.cp1.status && t.cp2.status

/-- geo_to_pixel.c `Clear_Checkpoints` (lines 529-534): reset every
checkpoint's status flag. -/
def Clear_Checkpoints (t : LapTracker) : LapTracker :=
  { t with cp0 := { t.cp0 with status := false },
           cp1 := { t.cp1 with status := false },
           cp2 := { t.cp2 with status := false } }

/-- geo_to_pixel.c `Count_Lap` (lines 459-491): scan the checkpoints in index
order and act on the first one within 5 m of the filtered position (the C
loop breaks there).  At checkpoint 0: if a lap had started, set its flag,
increment the lap counter when all flags are set, then clear all flags and
the started flag; if no lap had started, do nothing at all.  At checkpoint 1
or 2: set that flag and the started flag.  Takes and returns the tracker
state and the `_mapData->Lap` counter. -/
def Count_Lap (ops : FloatOps) (t : LapTracker) (lap : Int)
    (flat flon : ℚ) : LapTracker × Int :=
  if GPS_CalcDistance ops t.cp0.lat t.cp0.lon flat flon < 5 then
    if t.started then
      let t1 := { t with cp0 := { t.cp0 with status := true } }
      let lap1 := if Is_Lap_Complete t1 then lap + 1 else lap
      ({ Clear_Checkpoints t1 with started := false }, lap1)
    else (t, lap)
  else if GPS_CalcDistance ops t.cp1.lat t.cp1.lon flat flon < 5 then
    ({ t with cp1 := { t.cp1 with status := true }, started := true }, lap)
  else if GPS_CalcDistance ops t.cp2.lat t.cp2.lon flat flon < 5 then
    ({ t with cp2 := { t.cp2 with status := true }, started := true }, lap)
  else (t, lap)

/-! ## geo_to_pixel.c : NMEA decoding

The receive buffer is modelled as the list of characters of the C string in
`gps_buffer`.  The pieces of the C standard library the decoder uses
(`strstr`, `strtok` on `","`, `atoi`, `atof`, `strchr`) are embedded below
with exactly the behaviour the decoder exercises. -/

/-- Check whether `pat` is an initial segment of `s` (the match test behind
`strstr`). -/
def leadsWith : List Char → List Char → Bool
  | [], _ => true
  | _ :: _, [] => false
  | p :: ps, c :: cs => if p = c then leadsWith ps cs else false

/-- C `strstr`: index of the first occurrence of `pat` in `s`, if any. -/
def strstrIdx (pat : List Char) : List Char → Option Nat
  | [] => if leadsWith pat [] then some 0 else none
  | c :: rest =>
    if leadsWith pat (c :: rest) then some 0
    else (strstrIdx pat rest).map (· + 1)

/-- One splitting pass of C `strtok(·, ",")`, fuelled by the input length:
the list of maximal nonempty runs of non-comma characters, in order.  Like
`strtok`, consecutive commas produce no empty tokens. -/
def tokenizeF : Nat → List Char → List (List Char)
  | 0, _ => []
  | _ + 1, [] => []
  | fuel + 1, c :: rest =>
    if c = ',' then tokenizeF fuel rest
    else (c :: rest).takeWhile (fun x => ¬ x = ',') ::
      tokenizeF fuel ((c :: rest).dropWhile (fun x => ¬ x = ','))

/-- The token list `strtok` yields for a buffer. -/
def tokenize (s : List Char) : List (List Char) := tokenizeF s.length s

/-- Numeric value of a decimal digit character. -/
def digitVal (c : Char) : Nat := c.toNat - '0'.toNat

/-- Consume leading decimal digits, returning the accumulated value and the
rest of the input. -/
def readDigits : List Char → Nat → Nat × List Char
  | [], acc => (acc, [])
  | c :: rest, acc =>
    if c.isDigit then readDigits rest (acc * 10 + digitVal c)
    else (acc, c :: rest)

/-- C `atoi` as the decoder uses it: an optional sign followed by leading
decimal digits (the degree buffers passed to it contain only digits). -/
def atoi (s : List Char) : Int :=
  match s with
  | '-' :: rest => -((readDigits rest 0).1 : Int)
  | '+' :: rest => ((readDigits rest 0).1 : Int)
  | _ => ((readDigits s 0).1 : Int)

/-- C `atof` as the decoder uses it: an optional sign, leading digits, and an
optional fractional part after a decimal point (the NMEA fields parsed here
use no exponent notation). -/
def atof (s : List Char) : ℚ :=
  match s with
  | '-' :: rest => -(atofCore rest)
  | '+' :: rest => atofCore rest
  | _ => atofCore s
where
  atofCore (l : List Char) : ℚ :=
    let ip := readDigits l 0
    match ip.2 with
    | '.' :: frac =>
      let fp := readDigits frac 0
      (ip.1 : ℚ) + (fp.1 : ℚ) / ((10 : ℚ) ^ (frac.length - fp.2.length))
    | _ => (ip.1 : ℚ)

/-- geo_to_pixel.c `NMEA_To_Decimal` (lines 269-285): split a `ddmm.mmmm` /
`dddmm.mmmm` coordinate string at the decimal point, take 2 or 3 leading
digits as whole degrees depending on whether more than 4 characters precede
the point, parse the remainder as minutes, and combine as
degrees + minutes/60.  (If the string has no decimal point the C code's
pointer arithmetic on a NULL `strchr` result is undefined; the embedding's
`List.findIdx` then returns the string length.  The decoder only reaches this
function on fields that the sentences of interest give with a point.) -/
def NMEA_To_Decimal (nmea : List Char) : ℚ :=
  let len := nmea.findIdx (fun c => c = '.')
  let deg_digits := if len > 4 then 3 else 2
  let degrees := atoi (nmea.take deg_digits)
  let minutes := atof (nmea.drop deg_digits)
  (degrees : ℚ) + minutes / 60

/-- The decoded fix a successful `Read_GPS_Location` writes into `_gpsData`:
raw latitude and longitude in decimal degrees and, when the speed field was
present, the speed in km/h. -/
structure GeoFix where
  lat : ℚ
  lon : ℚ
  speed : Option ℚ
deriving DecidableEq

/-- The sentence identifier searched for in the receive buffer. -/
def gnrmcPat : List Char := '$' :: 'G' :: 'N' :: 'R' :: 'M' :: 'C' :: []

/-- The fix-status character of an occurrence: first character of the token
at field index 2 of the `strtok` run over the (length-truncated) occurrence,
exactly as the C `switch` collects it. -/
def rmcStatus (occ : List Char) : Option Char :=
  ((tokenize (occ.take (GPS_BUFFER_SIZE - 1))).get? 2).bind List.head?

/-- Parse one `$GNRMC` occurrence (geo_to_pixel.c lines 191-252): copy at
most `GPS_BUFFER_SIZE - 1` characters, tokenize on commas, pick out the
status and the four position fields plus the optional speed field by index,
and accept only status `'A'` with all four position fields present.
Hemispheres `'S'` and `'W'` negate; speed converts from knots with the factor
1.852. -/
def parseGNRMC (occ : List Char) : Option GeoFix :=
  let toks := tokenize (occ.take (GPS_BUFFER_SIZE - 1))
  match toks.get? 3, toks.get? 4, toks.get? 5, toks.get? 6 with
  | some latStr, some latDir, some lonStr, some lonDir =>
    if rmcStatus occ = some 'A' then
      some { lat := if latDir.head? = some 'S' then -(NMEA_To_Decimal latStr)
               else NMEA_To_Decimal latStr,
             lon := if lonDir.head? = some 'W' then -(NMEA_To_Decimal lonStr)
               else NMEA_To_Decimal lonStr,
             speed := (toks.get? 7).map (fun sp => atof sp * 1.852) }
    else none
  | _, _, _, _ => none

/-- The `while ((start = strstr(start, "$GNRMC")))` loop of
`Read_GPS_Location`: find the next occurrence, try to parse it, and on
failure resume the search 6 characters past the occurrence.  The loop
consumes at least 6 characters per iteration, so fuel `length + 1` is enough;
it is made explicit to keep the definition structurally recursive. -/
def gnrmcLoop : Nat → List Char → Option GeoFix
  | 0, _ => none
  | fuel + 1, s =>
    match strstrIdx gnrmcPat s with
    | none => none
    | some i =>
      match parseGNRMC (s.drop i) with
      | some fix => some fix
      | none => gnrmcLoop fuel ((s.drop i).drop 6)

/-- geo_to_pixel.c `Read_GPS_Location` (lines 179-258), reading from an
explicit receive buffer: `some fix` when a parsable `$GNRMC` sentence is
found (HAL_OK, with the writes to `_gpsData` captured in the fix), `none`
otherwise (HAL_ERROR, no write to `_gpsData`). -/
def Read_GPS_Location (buf : List Char) : Option GeoFix :=
  gnrmcLoop (buf.length + 1) buf

/-- The reference sentence of the specification's decoder test. -/
def rmcTestSentence : List Char :=
  "$GNRMC,123519,A,4807.038,N,01131.000,E,022.4,084.4,230394,003.1,W*6A".toList

/-- The same sentence with fix status `'V'` (receiver warning) instead of
`'A'`. -/
def rmcTestSentenceV : List Char :=
  "$GNRMC,123519,V,4807.038,N,01131.000,E,022.4,084.4,230394,003.1,W*6A".toList

/-- Evaluation helper: `atof` on input that does not start with a sign
delegates to its core parser. -/
lemma atof_digit_head (c : Char) (rest : List Char)
    (h1 : c ≠ '-') (h2 : c ≠ '+') :
    atof (c :: rest) = atof.atofCore (c :: rest) := by
  unfold atof
  split
  · simp_all
  · simp_all
  · rfl

/-- Evaluation helper: the core `atof` parser on `digits.digits` input. -/
lemma atofCore_point (l frac : List Char) (n m : Nat)
    (h1 : readDigits l 0 = (n, '.' :: frac))
    (h2 : (readDigits frac 0).1 = m) (h3 : (readDigits frac 0).2 = []) :
    atof.atofCore l = (n : ℚ) + (m : ℚ) / 10 ^ frac.length := by
  unfold atof.atofCore
  rw [h1]
  simp [h2, h3]

/-- A `$GNRMC` occurrence whose status field is not `'A'` never parses: both
the missing-field fallthrough and the status test of `parseGNRMC` yield
`none`. -/
lemma parseGNRMC_not_A (occ : List Char) (h : rmcStatus occ ≠ some 'A') :
    parseGNRMC occ = none := by
  unfold parseGNRMC
  split
  · next hA => exact absurd hA h
  · next =>
      dsimp only
      split <;> rfl

/-- If no `$GNRMC` occurrence remains, the search loop fails for any fuel. -/
lemma gnrmcLoop_nofind (fuel : Nat) (s : List Char)
    (h : strstrIdx gnrmcPat s = none) : gnrmcLoop fuel s = none := by
  cases fuel
  · rfl
  · simp [gnrmcLoop, h]

/-- Evaluation of the decoder on the reference sentence. -/
lemma rmcTestSentence_decode : Read_GPS_Location rmcTestSentence =
    some { lat := 48.1173, lon := 11 + 31 / 60,
           speed := some ((22 + 4 / 10) * 1.852) } := by
  have h3 : (tokenize (rmcTestSentence.take (GPS_BUFFER_SIZE - 1))).get? 3 =
      some "4807.038".toList := by decide
  have h4 : (tokenize (rmcTestSentence.take (GPS_BUFFER_SIZE - 1))).get? 4 =
      some "N".toList := by decide
  have h5 : (tokenize (rmcTestSentence.take (GPS_BUFFER_SIZE - 1))).get? 5 =
      some "01131.000".toList := by decide
  have h6 : (tokenize (rmcTestSentence.take (GPS_BUFFER_SIZE - 1))).get? 6 =
      some "E".toList := by decide
  have h7 : (tokenize (rmcTestSentence.take (GPS_BUFFER_SIZE - 1))).get? 7 =
      some "022.4".toList := by decide
  have hst : rmcStatus rmcTestSentence = some 'A' := by decide
  have hfind : strstrIdx gnrmcPat rmcTestSentence = some 0 := by decide
  have hparse : parseGNRMC rmcTestSentence =
      some { lat := 48.1173, lon := 11 + 31 / 60,
             speed := some ((22 + 4 / 10) * 1.852) } := by
    simp only [parseGNRMC]
    rw [h3, h4, h5, h6, h7]
    dsimp only
    rw [if_pos hst]
    rw [if_neg (by decide : ¬ "N".toList.head? = some 'S'),
      if_neg (by decide : ¬ "E".toList.head? = some 'W')]
    have hlat : NMEA_To_Decimal "4807.038".toList = 48.1173 := by
      have hfi : "4807.038".toList.findIdx (fun c => c = '.') = 4 := by decide
      unfold NMEA_To_Decimal
      rw [hfi]
      norm_num
      have hato : atoi ['4', '8'] = 48 := by decide
      rw [hato, atof_digit_head '0' _ (by decide) (by decide),
        atofCore_point _ ['0', '3', '8'] 7 38 (by decide) (by decide) (by decide)]
      norm_num
    have hlon : NMEA_To_Decimal "01131.000".toList = 11 + 31 / 60 := by
      have hfi : "01131.000".toList.findIdx (fun c => c = '.') = 5 := by decide
      unfold NMEA_To_Decimal
      rw [hfi]
      norm_num
      have hato : atoi ['0', '1', '1'] = 11 := by decide
      rw [hato, atof_digit_head '3' _ (by decide) (by decide),
        atofCore_point _ ['0', '0', '0'] 31 0 (by decide) (by decide) (by decide)]
      norm_num
    have hsp : atof "022.4".toList = 22 + 4 / 10 := by
      have hl : "022.4".toList = ['0', '2', '2', '.', '4'] := by decide
      rw [hl, atof_digit_head '0' _ (by decide) (by decide),
        atofCore_point _ ['4'] 22 4 (by decide) (by decide) (by decide)]
      norm_num
    simp only [hlat, hlon, Option.map_some', hsp]
  show gnrmcLoop (rmcTestSentence.length + 1) rmcTestSentence = _
  rw [gnrmcLoop, hfind]
  simp only [List.drop_zero, hparse]

/-- C5: decoding the reference buffer succeeds with latitude exactly
48.1173 degrees, longitude within 0.0001 of 11.5167 degrees and speed within
0.1 of 41.5 km/h (a valid fix); and every buffer whose single `$GNRMC`
sentence carries status `'V'` fails to decode. -/
theorem C5_gnrmc_decoder :
    (∃ fix, Read_GPS_Location rmcTestSentence = some fix ∧
      fix.lat = 48.1173 ∧ |fix.lon - 11.5167| < 1 / 10000 ∧
      ∃ s, fix.speed = some s ∧ |s - 41.5| < 1 / 10) ∧
    (∀ buf i, strstrIdx gnrmcPat buf = some i →
      rmcStatus (buf.drop i) = some 'V' →
      strstrIdx gnrmcPat ((buf.drop i).drop 6) = none →
      Read_GPS_Location buf = none) := by
  constructor
  · refine ⟨_, rmcTestSentence_decode, rfl, ?_, _, rfl, ?_⟩
    · rw [abs_lt]
      constructor <;> norm_num
    · rw [abs_lt]
      constructor <;> norm_num
  · intro buf i h1 h2 h3
    have hne : rmcStatus (buf.drop i) ≠ some 'A' := by
      rw [h2]
      decide
    show gnrmcLoop (buf.length + 1) buf = none
    rw [gnrmcLoop, h1]
    dsimp only
    rw [parseGNRMC_not_A _ hne]
    exact gnrmcLoop_nofind _ _ h3

/-- C5 witness: the status-`'V'` half of the theorem applied to the concrete
`'V'` variant of the reference sentence. -/
theorem C5_gnrmc_decoder_witness :
    strstrIdx gnrmcPat rmcTestSentenceV = some 0 ∧
    rmcStatus (rmcTestSentenceV.drop 0) = some 'V' ∧
    strstrIdx gnrmcPat ((rmcTestSentenceV.drop 0).drop 6) = none ∧
    Read_GPS_Location rmcTestSentenceV = none :=
  ⟨by decide, by decide, by decide,
    C5_gnrmc_decoder.2 rmcTestSentenceV 0 (by decide) (by decide) (by decide)⟩

/-! ## geo_to_pixel.c : pipeline orchestration -/

/-- All mutable file statics of geo_to_pixel.c that the pipeline touches:
`_gpsData`, `_mapData`, `_mapCachedData`, and the lap tracker state
(`Checkpoints`, `Is_Lap_Started`). -/
structure SysState where
  gps : GPS_Data
  map : MapOffset
  mapCached : MapOffset
  lap : LapTracker
deriving DecidableEq

/-- geo_to_pixel.c `Run_GeoPipeline` (lines 153-166) with the receive buffer
explicit: on decode failure (`HAL_ERROR` from `Read_GPS_Location`) nothing
runs and the state is returned untouched; on success the decoder's writes to
`_gpsData` land (speed only when the speed field was present), then filter,
pixel mapping, icon angle and lap counting run in order. -/
def Run_GeoPipeline (ops : FloatOps) (buf : List Char) (st : SysState) : SysState :=
  match Read_GPS_Location buf with
  | none => st
  | some fix =>
    let gps0 :=
      { st.gps with
        raw_lat := fix.lat
        raw_lon := fix.lon
        speed := fix.speed.getD st.gps.speed }
    let gps1 := GPS_Filter ops gps0
    let map1 := Calculate_Geo_To_Pixel st.map gps1
    let p := Calculate_Icon_Angle ops st.mapCached map1
    let q := Count_Lap ops st.lap p.1.Lap gps1.filtered_lat gps1.filtered_lon
    { gps := gps1, map := { p.1 with Lap := q.2 }, mapCached := p.2, lap := q.1 }

/-- Concrete trigonometry record for witnesses: all calls return 0,
`pi` is 3.  Distances computed with it are 0. -/
def zeroOps : FloatOps :=
  { sin := fun _ => 0, cos := fun _ => 0, sqrt := fun _ => 0,
    atan2 := fun _ _ => 0, pi := 3 }

/-- Concrete trigonometry record for witnesses whose `atan2` returns 1, so
distances computed with it are 12 742 000 m. -/
def oneOps : FloatOps :=
  { zeroOps with atan2 := fun _ _ => 1 }

/-- C7: when the Haversine distance between the incoming raw fix and the
last accepted position is below 3 m, the filter holds the filtered position
at the last accepted position and leaves every other field (in particular
the last-accepted pair) unchanged; from 3 m on it adopts the raw fix as both
the filtered and the last-accepted position. -/
theorem C7_gps_filter_deadband (ops : FloatOps) (gps : GPS_Data) :
    (GPS_CalcDistance ops gps.raw_lat gps.raw_lon gps.last_lat gps.last_lon < 3 →
      GPS_Filter ops gps =
        { gps with filtered_lat := gps.last_lat, filtered_lon := gps.last_lon }) ∧
    (3 ≤ GPS_CalcDistance ops gps.raw_lat gps.raw_lon gps.last_lat gps.last_lon →
      GPS_Filter ops gps =
        { gps with filtered_lat := gps.raw_lat, filtered_lon := gps.raw_lon,
                   last_lat := gps.raw_lat, last_lon := gps.raw_lon }) := by
  constructor
  · intro h
    simp [GPS_Filter, h]
  · intro h
    simp [GPS_Filter, not_lt.2 h]

/-- C7 witness: a sub-3-m step (distance 0 under `zeroOps`) holds the
filtered position; a 12 742 000-m step under `oneOps` moves it. -/
theorem C7_gps_filter_deadband_witness :
    (GPS_CalcDistance zeroOps 1 2 3 4 < 3 ∧
      GPS_Filter zeroOps ⟨1, 2, 3, 4, 5, 6, 7⟩ = ⟨1, 2, 3, 4, 3, 4, 7⟩) ∧
    (3 ≤ GPS_CalcDistance oneOps 1 2 3 4 ∧
      GPS_Filter oneOps ⟨1, 2, 3, 4, 5, 6, 7⟩ = ⟨1, 2, 1, 2, 1, 2, 7⟩) := by
  have h0 : GPS_CalcDistance zeroOps 1 2 3 4 < 3 := by
    norm_num [GPS_CalcDistance, zeroOps]
  have h1 : 3 ≤ GPS_CalcDistance oneOps 1 2 3 4 := by
    norm_num [GPS_CalcDistance, oneOps, zeroOps]
  exact ⟨⟨h0, (C7_gps_filter_deadband zeroOps ⟨1, 2, 3, 4, 5, 6, 7⟩).1 h0⟩,
    ⟨h1, (C7_gps_filter_deadband oneOps ⟨1, 2, 3, 4, 5, 6, 7⟩).2 h1⟩⟩

/-- C3: with checkpoints 1 and 2 both reached and the lap started, coming
within 5 m of checkpoint 0 increments the lap counter by exactly one and
clears every reached flag; approaching checkpoint 0 with the started flag
clear leaves the lap counter unchanged. -/
theorem C3_lap_counting (ops : FloatOps) (t : LapTracker) (lap : Int)
    (flat flon : ℚ) :
    (t.cp1.status = true → t.cp2.status = true → t.started = true →
      GPS_CalcDistance ops t.cp0.lat t.cp0.lon flat flon < 5 →
      (Count_Lap ops t lap flat flon).2 = lap + 1 ∧
      (Count_Lap ops t lap flat flon).1.cp0.status = false ∧
      (Count_Lap ops t lap flat flon).1.cp1.status = false ∧
      (Count_Lap ops t lap flat flon).1.cp2.status = false) ∧
    (t.started = false →
      GPS_CalcDistance ops t.cp0.lat t.cp0.lon flat flon < 5 →
      (Count_Lap ops t lap flat flon).2 = lap) := by
  constructor
  · intro h1 h2 hs hnear
    simp [Count_Lap, hnear, hs, Is_Lap_Complete, Clear_Checkpoints, h1, h2]
  · intro hs hnear
    simp [Count_Lap, hnear, hs]

/-- C3 witness: the lap increment with concrete tracker state and distance 0
to checkpoint 0, and the no-increment case with the started flag clear. -/
theorem C3_lap_counting_witness :
    GPS_CalcDistance zeroOps 10 20 50 60 < 5 ∧
    (Count_Lap zeroOps ⟨⟨false, 10, 20⟩, ⟨true, 11, 21⟩, ⟨true, 12, 22⟩, true⟩
        7 50 60).2 = 8 ∧
    (Count_Lap zeroOps ⟨⟨false, 10, 20⟩, ⟨true, 11, 21⟩, ⟨true, 12, 22⟩, false⟩
        7 50 60).2 = 7 := by
  have h0 : GPS_CalcDistance zeroOps 10 20 50 60 < 5 := by
    norm_num [GPS_CalcDistance, zeroOps]
  have ha := (C3_lap_counting zeroOps
    ⟨⟨false, 10, 20⟩, ⟨true, 11, 21⟩, ⟨true, 12, 22⟩, true⟩ 7 50 60).1
    rfl rfl rfl h0
  have hb := (C3_lap_counting zeroOps
    ⟨⟨false, 10, 20⟩, ⟨true, 11, 21⟩, ⟨true, 12, 22⟩, false⟩ 7 50 60).2
    rfl h0
  refine ⟨h0, ?_, hb⟩
  rw [ha.1]
  decide

/-- C9: approaching checkpoint 0 with the started flag clear changes nothing
at all — the tracker state (every reached flag and the started flag) and the
lap counter come back exactly as they went in. -/
theorem C9_start_line_no_op (ops : FloatOps) (t : LapTracker) (lap : Int)
    (flat flon : ℚ) (hs : t.started = false)
    (hnear : GPS_CalcDistance ops t.cp0.lat t.cp0.lon flat flon < 5) :
    Count_Lap ops t lap flat flon = (t, lap) := by
  simp [Count_Lap, hnear, hs]

/-- C9 witness: the no-op applied to a concrete not-started tracker sitting
on the start line. -/
theorem C9_start_line_no_op_witness :
    GPS_CalcDistance zeroOps 1 1 2 2 < 5 ∧
    Count_Lap zeroOps ⟨⟨false, 1, 1⟩, ⟨true, 3, 3⟩, ⟨false, 4, 4⟩, false⟩ 9 2 2 =
      (⟨⟨false, 1, 1⟩, ⟨true, 3, 3⟩, ⟨false, 4, 4⟩, false⟩, 9) := by
  have h0 : GPS_CalcDistance zeroOps 1 1 2 2 < 5 := by
    norm_num [GPS_CalcDistance, zeroOps]
  exact ⟨h0, C9_start_line_no_op zeroOps _ 9 2 2 rfl h0⟩

/-- C6: when decoding finds no parsable `$GNRMC` sentence, the pipeline run
returns every piece of state — `_gpsData` (the filter state), `_mapData`
(all four `MapOffset` fields), `_mapCachedData` and the lap tracker —
exactly as it was. -/
theorem C6_decode_failure_no_effect (ops : FloatOps) (buf : List Char)
    (st : SysState) (h : Read_GPS_Location buf = none) :
    Run_GeoPipeline ops buf st = st := by
  simp [Run_GeoPipeline, h]

/-- C6 witness: an empty receive buffer decodes to nothing and the pipeline
leaves a concrete state untouched. -/
theorem C6_decode_failure_no_effect_witness :
    Read_GPS_Location [] = none ∧
    Run_GeoPipeline zeroOps []
        ⟨⟨1, 2, 3, 4, 5, 6, 7⟩, ⟨8, 9, 10, 11⟩, ⟨12, 13, 14, 15⟩,
         ⟨⟨true, 1, 1⟩, ⟨false, 2, 2⟩, ⟨true, 3, 3⟩, true⟩⟩ =
      ⟨⟨1, 2, 3, 4, 5, 6, 7⟩, ⟨8, 9, 10, 11⟩, ⟨12, 13, 14, 15⟩,
       ⟨⟨true, 1, 1⟩, ⟨false, 2, 2⟩, ⟨true, 3, 3⟩, true⟩⟩ :=
  ⟨by decide, C6_decode_failure_no_effect zeroOps [] _ (by decide)⟩

/-- For nonnegative rationals, C truncation agrees with the floor. -/
lemma ctrunc_eq_floor {q : ℚ} (h : 0 ≤ q) : ctrunc q = ⌊q⌋ := by
  have hnum : 0 ≤ q.num := Rat.num_nonneg.2 h
  rw [ctrunc, Int.tdiv_eq_ediv hnum (Int.ofNat_nonneg q.den)]
  calc q.num / (q.den : Int)
      = ⌊((q.num : ℚ) / (q.den : ℚ))⌋ := (Rat.floor_intCast_div_natCast _ _).symm
    _ = ⌊q⌋ := by rw [Rat.num_div_den]

/-- C truncation keeps `[0, 360)` inside `[0, 360)`. -/
lemma ctrunc_bounds {q : ℚ} (h0 : 0 ≤ q) (h1 : q < 360) :
    0 ≤ ctrunc q ∧ ctrunc q < 360 := by
  rw [ctrunc_eq_floor h0]
  constructor
  · exact Int.le_floor.2 (by exact_mod_cast h0)
  · exact Int.floor_lt.2 (by exact_mod_cast h1)

/-- The clamping/normalization invariant of the shared `MapOffset` record:
both pixels inside the configured clamp window and the icon heading inside
`[0, 360)`. -/
def MapInvariant (m : MapOffset) : Prop :=
  MAP_X_MIN_VAL ≤ m.PixelX ∧ m.PixelX ≤ MAP_X_MAX_VAL ∧
  MAP_Y_MIN_VAL ≤ m.PixelY ∧ m.PixelY ≤ MAP_Y_MAX_VAL ∧
  0 ≤ m.IconAngle ∧ m.IconAngle < 360

/-- C4: every writer of the shared map state keeps it inside its domain:
`Get_Map_Draw_Position` clamps both pixels into the configured window for
every input (however far outside the bounding box) and leaves the heading
alone; `Calculate_Geo_To_Pixel` inherits this for every position; the
heading update yields a value in `[0, 360)` whenever `atan2` respects its
mathematical range `(-pi, pi]`, and preserves the pixels; and a whole
pipeline run preserves the invariant. -/
theorem C4_map_state_invariant :
    (∀ (m : MapOffset) (x y : Int),
      MAP_X_MIN_VAL ≤ (Get_Map_Draw_Position m x y).PixelX ∧
      (Get_Map_Draw_Position m x y).PixelX ≤ MAP_X_MAX_VAL ∧
      MAP_Y_MIN_VAL ≤ (Get_Map_Draw_Position m x y).PixelY ∧
      (Get_Map_Draw_Position m x y).PixelY ≤ MAP_Y_MAX_VAL ∧
      (Get_Map_Draw_Position m x y).IconAngle = m.IconAngle) ∧
    (∀ (m : MapOffset) (gps : GPS_Data),
      MAP_X_MIN_VAL ≤ (Calculate_Geo_To_Pixel m gps).PixelX ∧
      (Calculate_Geo_To_Pixel m gps).PixelX ≤ MAP_X_MAX_VAL ∧
      MAP_Y_MIN_VAL ≤ (Calculate_Geo_To_Pixel m gps).PixelY ∧
      (Calculate_Geo_To_Pixel m gps).PixelY ≤ MAP_Y_MAX_VAL ∧
      (Calculate_Geo_To_Pixel m gps).IconAngle = m.IconAngle) ∧
    (∀ (ops : FloatOps) (cached m : MapOffset), 0 < ops.pi →
      (∀ b a : ℚ, -ops.pi < ops.atan2 b a ∧ ops.atan2 b a ≤ ops.pi) →
      0 ≤ m.IconAngle → m.IconAngle < 360 →
      (Calculate_Icon_Angle ops cached m).1.PixelX = m.PixelX ∧
      (Calculate_Icon_Angle ops cached m).1.PixelY = m.PixelY ∧
      0 ≤ (Calculate_Icon_Angle ops cached m).1.IconAngle ∧
      (Calculate_Icon_Angle ops cached m).1.IconAngle < 360) ∧
    (∀ (ops : FloatOps) (buf : List Char) (st : SysState), 0 < ops.pi →
      (∀ b a : ℚ, -ops.pi < ops.atan2 b a ∧ ops.atan2 b a ≤ ops.pi) →
      MapInvariant st.map → MapInvariant (Run_GeoPipeline ops buf st).map) := by
  have hdraw : ∀ (m : MapOffset) (x y : Int),
      MAP_X_MIN_VAL ≤ (Get_Map_Draw_Position m x y).PixelX ∧
      (Get_Map_Draw_Position m x y).PixelX ≤ MAP_X_MAX_VAL ∧
      MAP_Y_MIN_VAL ≤ (Get_Map_Draw_Position m x y).PixelY ∧
      (Get_Map_Draw_Position m x y).PixelY ≤ MAP_Y_MAX_VAL ∧
      (Get_Map_Draw_Position m x y).IconAngle = m.IconAngle := by
    intro m x y
    simp only [Get_Map_Draw_Position, MAP_X_MIN_VAL, MAP_X_MAX_VAL,
      MAP_Y_MIN_VAL, MAP_Y_MAX_VAL, ICON_X, ICON_Y, ICON_WIDTH, ICON_HEIGHT]
    refine ⟨?_, ?_, ?_, ?_, trivial⟩ <;> split_ifs <;> omega
  have hgeo : ∀ (m : MapOffset) (gps : GPS_Data),
      MAP_X_MIN_VAL ≤ (Calculate_Geo_To_Pixel m gps).PixelX ∧
      (Calculate_Geo_To_Pixel m gps).PixelX ≤ MAP_X_MAX_VAL ∧
      MAP_Y_MIN_VAL ≤ (Calculate_Geo_To_Pixel m gps).PixelY ∧
      (Calculate_Geo_To_Pixel m gps).PixelY ≤ MAP_Y_MAX_VAL ∧
      (Calculate_Geo_To_Pixel m gps).IconAngle = m.IconAngle := by
    intro m gps
    exact hdraw m _ _
  have hangle : ∀ (ops : FloatOps) (cached m : MapOffset), 0 < ops.pi →
      (∀ b a : ℚ, -ops.pi < ops.atan2 b a ∧ ops.atan2 b a ≤ ops.pi) →
      0 ≤ m.IconAngle → m.IconAngle < 360 →
      (Calculate_Icon_Angle ops cached m).1.PixelX = m.PixelX ∧
      (Calculate_Icon_Angle ops cached m).1.PixelY = m.PixelY ∧
      0 ≤ (Calculate_Icon_Angle ops cached m).1.IconAngle ∧
      (Calculate_Icon_Angle ops cached m).1.IconAngle < 360 := by
    intro ops cached m hpi hrange h0 h1
    unfold Calculate_Icon_Angle
    split
    · next hne =>
        dsimp only
        obtain ⟨hlo, hhi⟩ := hrange ((cached.PixelY - m.PixelY : Int) : ℚ)
          ((cached.PixelX - m.PixelX : Int) : ℚ)
        have hpinv : (0 : ℚ) < 180 / ops.pi := by positivity
        have hub : ops.atan2 ((cached.PixelY - m.PixelY : Int) : ℚ)
            ((cached.PixelX - m.PixelX : Int) : ℚ) * (180 / ops.pi) ≤ 180 := by
          calc ops.atan2 _ _ * (180 / ops.pi)
              ≤ ops.pi * (180 / ops.pi) :=
                mul_le_mul_of_nonneg_right hhi hpinv.le
            _ = 180 := by
                rw [mul_comm]
                exact div_mul_cancel₀ 180 (ne_of_gt hpi)
        have hlb : -180 < ops.atan2 ((cached.PixelY - m.PixelY : Int) : ℚ)
            ((cached.PixelX - m.PixelX : Int) : ℚ) * (180 / ops.pi) := by
          calc (-180 : ℚ) = -ops.pi * (180 / ops.pi) := by
                rw [neg_mul, mul_comm, div_mul_cancel₀ 180 (ne_of_gt hpi)]
            _ < _ := mul_lt_mul_of_pos_right hlo hpinv
        have key : ∀ d : ℚ, -180 < d → d ≤ 180 →
            0 ≤ (if (if d + 180 < 0 then d + 180 + 360 else d + 180) ≥ 360 then
                  (if d + 180 < 0 then d + 180 + 360 else d + 180) - 360
                else (if d + 180 < 0 then d + 180 + 360 else d + 180)) ∧
            (if (if d + 180 < 0 then d + 180 + 360 else d + 180) ≥ 360 then
                  (if d + 180 < 0 then d + 180 + 360 else d + 180) - 360
                else (if d + 180 < 0 then d + 180 + 360 else d + 180)) < 360 := by
          intro d hd1 hd2
          split_ifs <;> constructor <;> linarith
        obtain ⟨k1, k2⟩ := key _ hlb hub
        exact ⟨rfl, rfl, (ctrunc_bounds k1 k2).1, (ctrunc_bounds k1 k2).2⟩
    · next => exact ⟨rfl, rfl, h0, h1⟩
  have hcomp : ∀ (ops : FloatOps) (st : SysState) (gps1 : GPS_Data) (L : Int),
      0 < ops.pi →
      (∀ b a : ℚ, -ops.pi < ops.atan2 b a ∧ ops.atan2 b a ≤ ops.pi) →
      MapInvariant st.map →
      MapInvariant
        { (Calculate_Icon_Angle ops st.mapCached
            (Calculate_Geo_To_Pixel st.map gps1)).1 with Lap := L } := by
    intro ops st gps1 L hpi hrange hinv
    obtain ⟨i1, i2, i3, i4, i5, i6⟩ := hinv
    obtain ⟨g1, g2, g3, g4, g5⟩ := hgeo st.map gps1
    obtain ⟨a1, a2, a3, a4⟩ := hangle ops st.mapCached
      (Calculate_Geo_To_Pixel st.map gps1) hpi hrange
      (by rw [g5]; exact i5) (by rw [g5]; exact i6)
    refine ⟨?_, ?_, ?_, ?_, ?_, ?_⟩
    · show MAP_X_MIN_VAL ≤ (Calculate_Icon_Angle ops st.mapCached _).1.PixelX
      rw [a1]; exact g1
    · show (Calculate_Icon_Angle ops st.mapCached _).1.PixelX ≤ MAP_X_MAX_VAL
      rw [a1]; exact g2
    · show MAP_Y_MIN_VAL ≤ (Calculate_Icon_Angle ops st.mapCached _).1.PixelY
      rw [a2]; exact g3
    · show (Calculate_Icon_Angle ops st.mapCached _).1.PixelY ≤ MAP_Y_MAX_VAL
      rw [a2]; exact g4
    · exact a3
    · exact a4
  refine ⟨hdraw, hgeo, hangle, ?_⟩
  intro ops buf st hpi hrange hinv
  unfold Run_GeoPipeline
  split
  · exact hinv
  · next fix heq =>
      exact hcomp ops st _ _ hpi hrange hinv

/-- C4 witness: the pipeline-level invariant preservation applied to the
all-zero initial state with the concrete `zeroOps` trigonometry and an empty
receive buffer. -/
theorem C4_map_state_invariant_witness :
    0 < zeroOps.pi ∧
    (∀ b a : ℚ, -zeroOps.pi < zeroOps.atan2 b a ∧ zeroOps.atan2 b a ≤ zeroOps.pi) ∧
    MapInvariant (⟨0, 0, 0, 0⟩ : MapOffset) ∧
    MapInvariant (Run_GeoPipeline zeroOps []
      ⟨⟨0, 0, 0, 0, 0, 0, 0⟩, ⟨0, 0, 0, 0⟩, ⟨0, 0, 0, 0⟩,
       ⟨⟨false, 0, 0⟩, ⟨false, 0, 0⟩, ⟨false, 0, 0⟩, false⟩⟩).map := by
  have hpi : (0 : ℚ) < zeroOps.pi := by norm_num [zeroOps]
  have hrange : ∀ b a : ℚ,
      -zeroOps.pi < zeroOps.atan2 b a ∧ zeroOps.atan2 b a ≤ zeroOps.pi := by
    intro b a
    constructor <;> norm_num [zeroOps]
  have hinv : MapInvariant (⟨0, 0, 0, 0⟩ : MapOffset) :=
    ⟨by decide, by decide, by decide, by decide, by decide, by decide⟩
  exact ⟨hpi, hrange, hinv,
    C4_map_state_invariant.2.2.2 zeroOps []
      ⟨⟨0, 0, 0, 0, 0, 0, 0⟩, ⟨0, 0, 0, 0⟩, ⟨0, 0, 0, 0⟩,
       ⟨⟨false, 0, 0⟩, ⟨false, 0, 0⟩, ⟨false, 0, 0⟩, false⟩⟩ hpi hrange hinv⟩

/-! ## dashboard_controls.c : data model

The display sync engine is embedded with its UART traffic explicit: every
command the C code would format and transmit is recorded in a trace list.
Commands are identified by the same enumerators the source uses; the literal
command strings and the 0xFF 0xFF 0xFF terminator attach to each entry
mechanically and carry no information the claims need. -/

/-- The two HAL status values the dashboard code produces. -/
inductive HAL_Status where
  | HAL_OK
  | HAL_ERROR
deriving DecidableEq

/-- dashboard_controls.c `NEX_CommandID`: indices of the fixed command
strings. -/
inductive NEX_CommandID where
  | CONNECTION_OK
  | SET_GEAR_DRIVE
  | SET_GEAR_NEUTRAL
  | SET_GEAR_REVERSE
  | SET_HANDBREAK_ON
  | SET_HANDBREAK_OFF
  | SET_SIGNAL_LEFT_ON
  | SET_SIGNAL_LEFT_OFF
  | SET_SIGNAL_RIGHT_ON
  | SET_SIGNAL_RIGHT_OFF
  | SET_CONNECTION_WARNING_ON
  | SET_CONNECTION_WARNING_OFF
  | SET_BATTERY_WARNING_ON
  | SET_BATTERY_WARNING_OFF
  | SET_LIGHTS_ON
  | SET_LIGHTS_OFF
deriving DecidableEq

/-- dashboard_controls.c `NEX_Int_Command_ID`: indices of the one-placeholder
numeric command templates. -/
inductive NEX_Int_Command_ID where
  | SET_SPEED_COMMAND
  | SET_BATTERY_NUMBER_COMMAND
  | SET_BATTERY_PROGRESS_BAR_COMMAND
  | SET_KW_NUMBER_COMMAND
  | SET_KW_PROGRESS_BAR_COMMAND
  | SET_PACK_VOLTAGE
  | SET_MAX_VOLTAGE
  | SET_MIN_VOLTAGE
  | SET_BATTERY_TEMPERATURE
  | SET_MAP_X
  | SET_MAP_Y
  | SET_MAP_ICON
  | SET_MAP_LAP
deriving DecidableEq

/-- dashboard_controls.c `NEX_ProgressBar_Rotation`. -/
inductive NEX_ProgressBar_Rotation where
  | PROGRESS_BAR_REVERSE
  | PROGRESS_BAR_NO_REVERSE
deriving DecidableEq

/-- One transmitted display command: either a fixed command string
(`Send_Nextion_Command`) or a numeric template instantiated with a value
(`Send_Nextion_Int`). -/
inductive NexCmd where
  | fixedCmd : NEX_CommandID → NexCmd
  | intCmd : NEX_Int_Command_ID → Int → NexCmd
deriving DecidableEq

/-- dashboard_controls.h `NEX_Data` with the live-value pointers dereferenced:
the values the refresh reads this tick. -/
structure NEX_Data where
  speed : Int
  batteryValue : Int
  powerKW : Int
  packVoltage : Int
  maxVoltage : Int
  minVoltage : Int
  batteryTemp : Int
  mapData : MapOffset
  gear : Int
  handbrake : Int
  signalLeft : Int
  signalRight : Int
  connWarn : Int
  battWarn : Int
  lights : Int
deriving DecidableEq

/-- dashboard_controls.h `NEX_CachedData` (`_previousValues`): the last
transmitted value of every field. -/
structure NEX_CachedData where
  speed : Int
  batteryValue : Int
  powerKW : Int
  packVoltage : Int
  maxVoltage : Int
  minVoltage : Int
  batteryTemp : Int
  mapData : MapOffset
  gear : Int
  handbrake : Int
  signalLeft : Int
  signalRight : Int
  connWarn : Int
  battWarn : Int
  lights : Int
deriving DecidableEq

/-- The progress-bar domain constants `NEX_BATTERY_PROGRESS_BAR_MAX_VAL`,
`NEX_BATTERY_PROGRESS_BAR_MIN_VAL`, `NEX_KW_PROGRESS_BAR_MAX_VAL` and
`NEX_KW_PROGRESS_BAR_MIN_VAL` are referenced by dashboard_controls.c but
defined in a configuration header that is not part of the sources here, so
they are kept as parameters (the specification quotes `[0,100]` for the
battery bar and the header comments `0-6` for the power value). -/
structure NEX_BarConfig where
  batteryMax : Int
  batteryMin : Int
  kwMax : Int
  kwMin : Int
deriving DecidableEq

/-- dashboard_controls.c `Send_Nextion_Progress_Bar` (lines 470-484): inside
the range, rescale to `[0, 100]` with `Map_Int`, invert for a reversed bar,
cast to `uint8_t` (reduction mod 256) and emit the command (`HAL_OK`);
outside the range emit nothing and report `HAL_ERROR` (here: `none`). -/
def Send_Nextion_Progress_Bar (cmdID : NEX_Int_Command_ID)
    (val maxVal minVal : Int) (rot : NEX_ProgressBar_Rotation) : Option NexCmd :=
  if minVal ≤ val ∧ val ≤ maxVal then
    let mapVal :=
      match rot with
      | .PROGRESS_BAR_REVERSE => 100 - Map_Int val minVal maxVal 0 100
      | .PROGRESS_BAR_NO_REVERSE => Map_Int val minVal maxVal 0 100
    some (NexCmd.intCmd cmdID (mapVal % 256))
  else none

/-- The cache-and-trace state a refresh threads through its field blocks. -/
abbrev RState := NEX_CachedData × List NexCmd

/-- One plain numeric field block of `NEX_Refresh`: on change, transmit the
value with its command and update that cache slot. -/
def intFieldStep (cmd : NEX_Int_Command_ID) (live : Int)
    (cached : NEX_CachedData → Int)
    (upd : Int → NEX_CachedData → NEX_CachedData) (s : RState) : RState :=
  if live ≠ cached s.1 then (upd live s.1, s.2 ++ [NexCmd.intCmd cmd live])
  else s

/-- One two-state field block of `NEX_Refresh` (handbrake, signals, warnings,
lights): on change, transmit the on or off command by C truth test and update
that cache slot. -/
def toggleFieldStep (onCmd offCmd : NEX_CommandID) (live : Int)
    (cached : NEX_CachedData → Int)
    (upd : Int → NEX_CachedData → NEX_CachedData) (s : RState) : RState :=
  if live ≠ cached s.1 then
    (upd live s.1, s.2 ++ [NexCmd.fixedCmd (if live ≠ 0 then onCmd else offCmd)])
  else s

/-- The battery block of `NEX_Refresh` (dashboard_controls.c lines 268-275):
on change, the plain number command is transmitted first; then the progress
bar is attempted — if the value is outside the configured domain the refresh
returns `HAL_ERROR` right there, with the cache slot not updated; otherwise
the bar command follows and the cache slot is updated. -/
def stepBattery (cfg : NEX_BarConfig) (d : NEX_Data) (s : RState) :
    Except RState RState :=
  if d.batteryValue ≠ s.1.batteryValue then
    let t := s.2 ++ [NexCmd.intCmd .SET_BATTERY_NUMBER_COMMAND d.batteryValue]
    match Send_Nextion_Progress_Bar .SET_BATTERY_PROGRESS_BAR_COMMAND
        d.batteryValue cfg.batteryMax cfg.batteryMin .PROGRESS_BAR_NO_REVERSE with
    | some cmd => Except.ok ({ s.1 with batteryValue := d.batteryValue }, t ++ [cmd])
    | none => Except.error (s.1, t)
  else Except.ok s

/-- The power block of `NEX_Refresh` (dashboard_controls.c lines 278-285),
identical in shape to the battery block but with a reversed bar. -/
def stepPower (cfg : NEX_BarConfig) (d : NEX_Data) (s : RState) :
    Except RState RState :=
  if d.powerKW ≠ s.1.powerKW then
    let t := s.2 ++ [NexCmd.intCmd .SET_KW_NUMBER_COMMAND d.powerKW]
    match Send_Nextion_Progress_Bar .SET_KW_PROGRESS_BAR_COMMAND
        d.powerKW cfg.kwMax cfg.kwMin .PROGRESS_BAR_REVERSE with
    | some cmd => Except.ok ({ s.1 with powerKW := d.powerKW }, t ++ [cmd])
    | none => Except.error (s.1, t)
  else Except.ok s

/-- The speed block of `NEX_Refresh` (lines 263-266). -/
def stepSpeed (d : NEX_Data) : RState → RState :=
  intFieldStep .SET_SPEED_COMMAND d.speed (fun c => c.speed)
    (fun v c => { c with speed := v })

def stepPackVoltage (d : NEX_Data) : RState → RState :=
  intFieldStep .SET_PACK_VOLTAGE d.packVoltage (fun c => c.packVoltage)
    (fun v c => { c with packVoltage := v })

def stepMaxVoltage (d : NEX_Data) : RState → RState :=
  intFieldStep .SET_MAX_VOLTAGE d.maxVoltage (fun c => c.maxVoltage)
    (fun v c => { c with maxVoltage := v })

def stepMinVoltage (d : NEX_Data) : RState → RState :=
  intFieldStep .SET_MIN_VOLTAGE d.minVoltage (fun c => c.minVoltage)
    (fun v c => { c with minVoltage := v })

def stepBatteryTemp (d : NEX_Data) : RState → RState :=
  intFieldStep .SET_BATTERY_TEMPERATURE d.batteryTemp (fun c => c.batteryTemp)
    (fun v c => { c with batteryTemp := v })

def stepMapX (d : NEX_Data) : RState → RState :=
  intFieldStep .SET_MAP_X d.mapData.PixelX (fun c => c.mapData.PixelX)
    (fun v c => { c with mapData := { c.mapData with PixelX := v } })

def stepMapY (d : NEX_Data) : RState → RState :=
  intFieldStep .SET_MAP_Y d.mapData.PixelY (fun c => c.mapData.PixelY)
    (fun v c => { c with mapData := { c.mapData with PixelY := v } })

def stepMapIcon (d : NEX_Data) : RState → RState :=
  intFieldStep .SET_MAP_ICON d.mapData.IconAngle (fun c => c.mapData.IconAngle)
    (fun v c => { c with mapData := { c.mapData with IconAngle := v } })

def stepMapLap (d : NEX_Data) : RState → RState :=
  intFieldStep .SET_MAP_LAP d.mapData.Lap (fun c => c.mapData.Lap)
    (fun v c => { c with mapData := { c.mapData with Lap := v } })

/-- The command list the gear `switch` of `NEX_Refresh` (lines 330-334)
transmits: one fixed command for the gear values 0, 1, 2, nothing otherwise
(the `switch` has no default case). -/
def gearCmds (g : Int) : List NexCmd :=
  if g = 0 then [NexCmd.fixedCmd .SET_GEAR_NEUTRAL]
  else if g = 1 then [NexCmd.fixedCmd .SET_GEAR_DRIVE]
  else if g = 2 then [NexCmd.fixedCmd .SET_GEAR_REVERSE]
  else []

/-- The gear block of `NEX_Refresh` (lines 329-336): on change, transmit via
the `switch` — which is silent for unsupported values — and update the cache
slot unconditionally afterwards. -/
def stepGear (d : NEX_Data) (s : RState) : RState :=
  if d.gear ≠ s.1.gear then ({ s.1 with gear := d.gear }, s.2 ++ gearCmds d.gear)
  else s

def stepHandbrake (d : NEX_Data) : RState → RState :=
  toggleFieldStep .SET_HANDBREAK_ON .SET_HANDBREAK_OFF d.handbrake
    (fun c => c.handbrake) (fun v c => { c with handbrake := v })

def stepSignalLeft (d : NEX_Data) : RState → RState :=
  toggleFieldStep .SET_SIGNAL_LEFT_ON .SET_SIGNAL_LEFT_OFF d.signalLeft
    (fun c => c.signalLeft) (fun v c => { c with signalLeft := v })

def stepSignalRight (d : NEX_Data) : RState → RState :=
  toggleFieldStep .SET_SIGNAL_RIGHT_ON .SET_SIGNAL_RIGHT_OFF d.signalRight
    (fun c => c.signalRight) (fun v c => { c with signalRight := v })

def stepConnWarn (d : NEX_Data) : RState → RState :=
  toggleFieldStep .SET_CONNECTION_WARNING_ON .SET_CONNECTION_WARNING_OFF
    d.connWarn (fun c => c.connWarn) (fun v c => { c with connWarn := v })

def stepBattWarn (d : NEX_Data) : RState → RState :=
  toggleFieldStep .SET_BATTERY_WARNING_ON .SET_BATTERY_WARNING_OFF d.battWarn
    (fun c => c.battWarn) (fun v c => { c with battWarn := v })

def stepLights (d : NEX_Data) : RState → RState :=
  toggleFieldStep .SET_LIGHTS_ON .SET_LIGHTS_OFF d.lights
    (fun c => c.lights) (fun v c => { c with lights := v })

/-- The eight plain numeric blocks between the power block and the gear
block, in source order: pack/max/min voltage, temperature, map X, map Y,
icon angle, lap. -/
def refreshMid (d : NEX_Data) (s : RState) : RState :=
  stepMapLap d (stepMapIcon d (stepMapY d (stepMapX d
    (stepBatteryTemp d (stepMinVoltage d (stepMaxVoltage d
      (stepPackVoltage d s)))))))

/-- The six two-state blocks after the gear block, in source order:
handbrake, left and right signal, connection and battery warning, lights. -/
def refreshToggles (d : NEX_Data) (s : RState) : RState :=
  stepLights d (stepBattWarn d (stepConnWarn d (stepSignalRight d
    (stepSignalLeft d (stepHandbrake d s)))))

/-- dashboard_controls.c `NEX_Refresh` (lines 259-370): run the field blocks
in source order, threading the cache and the transmission trace.  The two
progress-bar blocks are the only ones that can fail; their `return
HAL_ERROR` aborts the whole refresh, leaving all later blocks unprocessed.
Returns the HAL status, the updated `_previousValues` cache and the list of
transmitted commands. -/
def NEX_Refresh (cfg : NEX_BarConfig) (d : NEX_Data) (c : NEX_CachedData) :
    HAL_Status × NEX_CachedData × List NexCmd :=
  match stepBattery cfg d (stepSpeed d (c, [])) with
  | .error s => (.HAL_ERROR, s)
  | .ok s1 =>
    match stepPower cfg d s1 with
    | .error s => (.HAL_ERROR, s)
    | .ok s2 => (.HAL_OK, refreshToggles d (stepGear d (refreshMid d s2)))

/-- Evaluation of the speed block: it always lands on the cache with the
speed slot set to the live value (a no-change write is invisible) and
appends the speed command exactly when the value changed. -/
lemma stepSpeed_eval (d : NEX_Data) (c : NEX_CachedData) (l : List NexCmd) :
    stepSpeed d (c, l) = ({ c with speed := d.speed },
      l ++ if d.speed ≠ c.speed then [NexCmd.intCmd .SET_SPEED_COMMAND d.speed]
        else []) := by
  by_cases h : d.speed = c.speed
  · simp [stepSpeed, intFieldStep, h]
  · simp [stepSpeed, intFieldStep, h]

/-- C1 counterexample: the claim says an out-of-domain progress-bar value
makes the refresh fail and "transmit nothing for that field".  With live
battery 150 against cache 0 and domain `[0,100]` the refresh does fail — but
it has already transmitted the plain battery-number command `nBt.val=150`
for that very field (only the bar command `jBt.val=…` is suppressed).  And
with the same out-of-domain battery 150 already cached, the refresh does not
fail at all: it returns `HAL_OK` and transmits nothing. -/
theorem C1_counterexample :
    NEX_Refresh ⟨100, 0, 6, 0⟩
      ⟨0, 150, 0, 0, 0, 0, 0, ⟨0, 0, 0, 0⟩, 0, 0, 0, 0, 0, 0, 0⟩
      ⟨0, 0, 0, 0, 0, 0, 0, ⟨0, 0, 0, 0⟩, 0, 0, 0, 0, 0, 0, 0⟩ =
      (.HAL_ERROR, ⟨0, 0, 0, 0, 0, 0, 0, ⟨0, 0, 0, 0⟩, 0, 0, 0, 0, 0, 0, 0⟩,
        [NexCmd.intCmd .SET_BATTERY_NUMBER_COMMAND 150]) ∧
    NEX_Refresh ⟨100, 0, 6, 0⟩
      ⟨0, 150, 0, 0, 0, 0, 0, ⟨0, 0, 0, 0⟩, 0, 0, 0, 0, 0, 0, 0⟩
      ⟨0, 150, 0, 0, 0, 0, 0, ⟨0, 0, 0, 0⟩, 0, 0, 0, 0, 0, 0, 0⟩ =
      (.HAL_OK, ⟨0, 150, 0, 0, 0, 0, 0, ⟨0, 0, 0, 0⟩, 0, 0, 0, 0, 0, 0, 0⟩,
        []) := by
  constructor <;> decide

/-- C1 (amended): when a progress-bar field's live value differs from its
cache and lies outside the configured domain, the refresh returns
`HAL_ERROR` immediately: the plain numeric command for that field has
already been transmitted, the bar command is not, the field's cache slot is
left unchanged (only the speed slot, written earlier in source order, is
updated), and no later field is processed — the trace ends with that numeric
command.  The battery block; and the power block when the battery did not
change. -/
theorem C1_refresh_bar_out_of_range (cfg : NEX_BarConfig) (d : NEX_Data)
    (c : NEX_CachedData) :
    (d.batteryValue ≠ c.batteryValue →
      ¬ (cfg.batteryMin ≤ d.batteryValue ∧ d.batteryValue ≤ cfg.batteryMax) →
      NEX_Refresh cfg d c = (.HAL_ERROR, { c with speed := d.speed },
        (if d.speed ≠ c.speed then [NexCmd.intCmd .SET_SPEED_COMMAND d.speed]
          else []) ++
        [NexCmd.intCmd .SET_BATTERY_NUMBER_COMMAND d.batteryValue])) ∧
    (d.batteryValue = c.batteryValue → d.powerKW ≠ c.powerKW →
      ¬ (cfg.kwMin ≤ d.powerKW ∧ d.powerKW ≤ cfg.kwMax) →
      NEX_Refresh cfg d c = (.HAL_ERROR, { c with speed := d.speed },
        (if d.speed ≠ c.speed then [NexCmd.intCmd .SET_SPEED_COMMAND d.speed]
          else []) ++
        [NexCmd.intCmd .SET_KW_NUMBER_COMMAND d.powerKW])) := by
  constructor
  · intro hb hr
    unfold NEX_Refresh
    rw [stepSpeed_eval]
    simp only [stepBattery, Send_Nextion_Progress_Bar]
    rw [if_pos hb, if_neg hr]
    simp
  · intro hbeq hp hr
    unfold NEX_Refresh
    rw [stepSpeed_eval]
    simp only [stepBattery]
    rw [if_neg (fun h => h hbeq)]
    simp only [stepPower, Send_Nextion_Progress_Bar]
    rw [if_pos hp, if_neg hr]
    simp

/-- C1 witness: the amended battery behaviour at live battery 200, cache 3,
domain `[0,100]`, with an unchanged speed. -/
theorem C1_refresh_bar_out_of_range_witness :
    (200 : Int) ≠ 3 ∧ ¬ ((0 : Int) ≤ 200 ∧ (200 : Int) ≤ 100) ∧
    NEX_Refresh ⟨100, 0, 6, 0⟩
      ⟨7, 200, 0, 0, 0, 0, 0, ⟨0, 0, 0, 0⟩, 0, 0, 0, 0, 0, 0, 0⟩
      ⟨7, 3, 0, 0, 0, 0, 0, ⟨0, 0, 0, 0⟩, 0, 0, 0, 0, 0, 0, 0⟩ =
      (.HAL_ERROR,
        { (⟨7, 3, 0, 0, 0, 0, 0, ⟨0, 0, 0, 0⟩, 0, 0, 0, 0, 0, 0, 0⟩ :
            NEX_CachedData) with speed := 7 },
        (if (7 : Int) ≠ 7 then [NexCmd.intCmd .SET_SPEED_COMMAND 7] else []) ++
        [NexCmd.intCmd .SET_BATTERY_NUMBER_COMMAND 200]) :=
  ⟨by decide, by decide,
    (C1_refresh_bar_out_of_range ⟨100, 0, 6, 0⟩
      ⟨7, 200, 0, 0, 0, 0, 0, ⟨0, 0, 0, 0⟩, 0, 0, 0, 0, 0, 0, 0⟩
      ⟨7, 3, 0, 0, 0, 0, 0, ⟨0, 0, 0, 0⟩, 0, 0, 0, 0, 0, 0, 0⟩).1
      (by decide) (by decide)⟩

/-- A transmitted command that sets a gear icon. -/
def isGearCmd (x : NexCmd) : Prop :=
  x = NexCmd.fixedCmd .SET_GEAR_DRIVE ∨ x = NexCmd.fixedCmd .SET_GEAR_NEUTRAL ∨
    x = NexCmd.fixedCmd .SET_GEAR_REVERSE

/-- A refresh block that never touches the gear cache slot and never
transmits a gear command: it only appends gear-free commands to the trace. -/
def GearSafe (f : RState → RState) : Prop :=
  ∀ s, (f s).1.gear = s.1.gear ∧
    ∃ e, (f s).2 = s.2 ++ e ∧ ∀ x ∈ e, ¬ isGearCmd x

lemma gearSafe_comp {f g : RState → RState} (hf : GearSafe f)
    (hg : GearSafe g) : GearSafe (fun s => g (f s)) := by
  intro s
  obtain ⟨h1, e1, he1, hx1⟩ := hf s
  obtain ⟨h2, e2, he2, hx2⟩ := hg (f s)
  refine ⟨by rw [h2, h1], e1 ++ e2, ?_, ?_⟩
  · rw [he2, he1, List.append_assoc]
  · intro x hx
    rcases List.mem_append.1 hx with h | h
    exacts [hx1 x h, hx2 x h]

lemma intFieldStep_gearSafe (cmd : NEX_Int_Command_ID) (live : Int)
    (cached : NEX_CachedData → Int)
    (upd : Int → NEX_CachedData → NEX_CachedData)
    (hupd : ∀ v c, (upd v c).gear = c.gear) :
    GearSafe (intFieldStep cmd live cached upd) := by
  intro s
  unfold intFieldStep
  split
  · refine ⟨hupd _ _, [NexCmd.intCmd cmd live], rfl, ?_⟩
    intro x hx
    rw [List.mem_singleton.1 hx]
    simp [isGearCmd]
  · exact ⟨rfl, [], by simp, by simp⟩

lemma toggleFieldStep_gearSafe (onCmd offCmd : NEX_CommandID) (live : Int)
    (cached : NEX_CachedData → Int)
    (upd : Int → NEX_CachedData → NEX_CachedData)
    (hupd : ∀ v c, (upd v c).gear = c.gear)
    (hon : ¬ isGearCmd (NexCmd.fixedCmd onCmd))
    (hoff : ¬ isGearCmd (NexCmd.fixedCmd offCmd)) :
    GearSafe (toggleFieldStep onCmd offCmd live cached upd) := by
  intro s
  unfold toggleFieldStep
  split
  · refine ⟨hupd _ _, [NexCmd.fixedCmd (if live ≠ 0 then onCmd else offCmd)],
      rfl, ?_⟩
    intro x hx
    rw [List.mem_singleton.1 hx]
    split
    exacts [hon, hoff]
  · exact ⟨rfl, [], by simp, by simp⟩

lemma refreshMid_gearSafe (d : NEX_Data) : GearSafe (refreshMid d) := by
  have h1 : GearSafe (stepPackVoltage d) :=
    intFieldStep_gearSafe _ _ _ _ (fun _ _ => rfl)
  have h2 : GearSafe (stepMaxVoltage d) :=
    intFieldStep_gearSafe _ _ _ _ (fun _ _ => rfl)
  have h3 : GearSafe (stepMinVoltage d) :=
    intFieldStep_gearSafe _ _ _ _ (fun _ _ => rfl)
  have h4 : GearSafe (stepBatteryTemp d) :=
    intFieldStep_gearSafe _ _ _ _ (fun _ _ => rfl)
  have h5 : GearSafe (stepMapX d) :=
    intFieldStep_gearSafe _ _ _ _ (fun _ _ => rfl)
  have h6 : GearSafe (stepMapY d) :=
    intFieldStep_gearSafe _ _ _ _ (fun _ _ => rfl)
  have h7 : GearSafe (stepMapIcon d) :=
    intFieldStep_gearSafe _ _ _ _ (fun _ _ => rfl)
  have h8 : GearSafe (stepMapLap d) :=
    intFieldStep_gearSafe _ _ _ _ (fun _ _ => rfl)
  have c2 : GearSafe (fun s => stepMaxVoltage d (stepPackVoltage d s)) :=
    gearSafe_comp h1 h2
  have c3 : GearSafe (fun s => stepMinVoltage d (stepMaxVoltage d
      (stepPackVoltage d s))) := gearSafe_comp c2 h3
  have c4 : GearSafe (fun s => stepBatteryTemp d (stepMinVoltage d
      (stepMaxVoltage d (stepPackVoltage d s)))) := gearSafe_comp c3 h4
  have c5 : GearSafe (fun s => stepMapX d (stepBatteryTemp d (stepMinVoltage d
      (stepMaxVoltage d (stepPackVoltage d s))))) := gearSafe_comp c4 h5
  have c6 : GearSafe (fun s => stepMapY d (stepMapX d (stepBatteryTemp d
      (stepMinVoltage d (stepMaxVoltage d (stepPackVoltage d s)))))) :=
    gearSafe_comp c5 h6
  have c7 : GearSafe (fun s => stepMapIcon d (stepMapY d (stepMapX d
      (stepBatteryTemp d (stepMinVoltage d (stepMaxVoltage d
        (stepPackVoltage d s))))))) := gearSafe_comp c6 h7
  have c8 : GearSafe (fun s => stepMapLap d (stepMapIcon d (stepMapY d
      (stepMapX d (stepBatteryTemp d (stepMinVoltage d (stepMaxVoltage d
        (stepPackVoltage d s)))))))) := gearSafe_comp c7 h8
  exact c8

lemma refreshToggles_gearSafe (d : NEX_Data) : GearSafe (refreshToggles d) := by
  have h1 : GearSafe (stepHandbrake d) :=
    toggleFieldStep_gearSafe _ _ _ _ _ (fun _ _ => rfl)
      (by simp [isGearCmd]) (by simp [isGearCmd])
  have h2 : GearSafe (stepSignalLeft d) :=
    toggleFieldStep_gearSafe _ _ _ _ _ (fun _ _ => rfl)
      (by simp [isGearCmd]) (by simp [isGearCmd])
  have h3 : GearSafe (stepSignalRight d) :=
    toggleFieldStep_gearSafe _ _ _ _ _ (fun _ _ => rfl)
      (by simp [isGearCmd]) (by simp [isGearCmd])
  have h4 : GearSafe (stepConnWarn d) :=
    toggleFieldStep_gearSafe _ _ _ _ _ (fun _ _ => rfl)
      (by simp [isGearCmd]) (by simp [isGearCmd])
  have h5 : GearSafe (stepBattWarn d) :=
    toggleFieldStep_gearSafe _ _ _ _ _ (fun _ _ => rfl)
      (by simp [isGearCmd]) (by simp [isGearCmd])
  have h6 : GearSafe (stepLights d) :=
    toggleFieldStep_gearSafe _ _ _ _ _ (fun _ _ => rfl)
      (by simp [isGearCmd]) (by simp [isGearCmd])
  have c2 : GearSafe (fun s => stepSignalLeft d (stepHandbrake d s)) :=
    gearSafe_comp h1 h2
  have c3 : GearSafe (fun s => stepSignalRight d (stepSignalLeft d
      (stepHandbrake d s))) := gearSafe_comp c2 h3
  have c4 : GearSafe (fun s => stepConnWarn d (stepSignalRight d
      (stepSignalLeft d (stepHandbrake d s)))) := gearSafe_comp c3 h4
  have c5 : GearSafe (fun s => stepBattWarn d (stepConnWarn d
      (stepSignalRight d (stepSignalLeft d (stepHandbrake d s))))) :=
    gearSafe_comp c4 h5
  have c6 : GearSafe (fun s => stepLights d (stepBattWarn d (stepConnWarn d
      (stepSignalRight d (stepSignalLeft d (stepHandbrake d s)))))) :=
    gearSafe_comp c5 h6
  exact c6

/-- When the live battery value equals its cache or lies inside the
configured domain, the battery block succeeds; it leaves the gear and power
cache slots alone and appends only gear-free commands. -/
lemma stepBattery_ok (cfg : NEX_BarConfig) (d : NEX_Data) (s : RState)
    (h : d.batteryValue = s.1.batteryValue ∨
      (cfg.batteryMin ≤ d.batteryValue ∧ d.batteryValue ≤ cfg.batteryMax)) :
    ∃ s', stepBattery cfg d s = .ok s' ∧ s'.1.gear = s.1.gear ∧
      s'.1.powerKW = s.1.powerKW ∧
      ∃ e, s'.2 = s.2 ++ e ∧ ∀ x ∈ e, ¬ isGearCmd x := by
  unfold stepBattery
  by_cases hb : d.batteryValue = s.1.batteryValue
  · rw [if_neg (fun hne => hne hb)]
    exact ⟨s, rfl, rfl, rfl, [], by simp, by simp⟩
  · have hr := h.resolve_left hb
    rw [if_pos hb]
    unfold Send_Nextion_Progress_Bar
    rw [if_pos hr]
    refine ⟨_, rfl, rfl, rfl,
      [NexCmd.intCmd .SET_BATTERY_NUMBER_COMMAND d.batteryValue,
       NexCmd.intCmd .SET_BATTERY_PROGRESS_BAR_COMMAND
         (Map_Int d.batteryValue cfg.batteryMin cfg.batteryMax 0 100 % 256)],
      by simp, ?_⟩
    intro x hx
    rcases List.mem_cons.1 hx with h1 | h1
    · rw [h1]; simp [isGearCmd]
    · rw [List.mem_singleton.1 h1]; simp [isGearCmd]

/-- Power-block analogue of `stepBattery_ok`: it preserves the gear cache
slot and appends only gear-free commands. -/
lemma stepPower_ok (cfg : NEX_BarConfig) (d : NEX_Data) (s : RState)
    (h : d.powerKW = s.1.powerKW ∨
      (cfg.kwMin ≤ d.powerKW ∧ d.powerKW ≤ cfg.kwMax)) :
    ∃ s', stepPower cfg d s = .ok s' ∧ s'.1.gear = s.1.gear ∧
      ∃ e, s'.2 = s.2 ++ e ∧ ∀ x ∈ e, ¬ isGearCmd x := by
  unfold stepPower
  by_cases hp : d.powerKW = s.1.powerKW
  · rw [if_neg (fun hne => hne hp)]
    exact ⟨s, rfl, rfl, [], by simp, by simp⟩
  · have hr := h.resolve_left hp
    rw [if_pos hp]
    unfold Send_Nextion_Progress_Bar
    rw [if_pos hr]
    refine ⟨_, rfl, rfl,
      [NexCmd.intCmd .SET_KW_NUMBER_COMMAND d.powerKW,
       NexCmd.intCmd .SET_KW_PROGRESS_BAR_COMMAND
         ((100 - Map_Int d.powerKW cfg.kwMin cfg.kwMax 0 100) % 256)],
      by simp, ?_⟩
    intro x hx
    rcases List.mem_cons.1 hx with h1 | h1
    · rw [h1]; simp [isGearCmd]
    · rw [List.mem_singleton.1 h1]; simp [isGearCmd]

/-- A changed gear value outside `{0, 1, 2}` hits the defaultless `switch`:
the cache slot is updated, nothing is transmitted. -/
lemma stepGear_unsupported (d : NEX_Data) (s : RState)
    (hg : d.gear ≠ s.1.gear) (h0 : d.gear ≠ 0) (h1 : d.gear ≠ 1)
    (h2 : d.gear ≠ 2) :
    stepGear d s = ({ s.1 with gear := d.gear }, s.2) := by
  unfold stepGear gearCmds
  rw [if_pos hg, if_neg h0, if_neg h1, if_neg h2]
  simp

/-- A changed gear value inside `{0, 1, 2}` transmits the matching gear
command and updates the cache slot. -/
lemma stepGear_supported (d : NEX_Data) (s : RState)
    (hg : d.gear ≠ s.1.gear) (hsup : d.gear = 0 ∨ d.gear = 1 ∨ d.gear = 2) :
    ∃ gcmd, isGearCmd (NexCmd.fixedCmd gcmd) ∧
      stepGear d s = ({ s.1 with gear := d.gear },
        s.2 ++ [NexCmd.fixedCmd gcmd]) := by
  unfold stepGear gearCmds
  rw [if_pos hg]
  rcases hsup with h | h | h
  · rw [if_pos h]
    exact ⟨.SET_GEAR_NEUTRAL, by simp [isGearCmd], rfl⟩
  · rw [if_neg (by rw [h]; decide), if_pos h]
    exact ⟨.SET_GEAR_DRIVE, by simp [isGearCmd], rfl⟩
  · rw [if_neg (by rw [h]; decide), if_neg (by rw [h]; decide), if_pos h]
    exact ⟨.SET_GEAR_REVERSE, by simp [isGearCmd], rfl⟩

/-- When neither progress-bar block aborts, the refresh reaches the gear
block: the state it hands to `stepGear` still carries the incoming gear
cache value and a gear-command-free trace, and the refresh result is the
toggle blocks applied after the gear block. -/
lemma NEX_Refresh_gear_path (cfg : NEX_BarConfig) (d : NEX_Data)
    (c : NEX_CachedData)
    (hb : d.batteryValue = c.batteryValue ∨
      (cfg.batteryMin ≤ d.batteryValue ∧ d.batteryValue ≤ cfg.batteryMax))
    (hp : d.powerKW = c.powerKW ∨
      (cfg.kwMin ≤ d.powerKW ∧ d.powerKW ≤ cfg.kwMax)) :
    ∃ sMid : RState, sMid.1.gear = c.gear ∧
      (∀ x ∈ sMid.2, ¬ isGearCmd x) ∧
      NEX_Refresh cfg d c =
        (.HAL_OK, refreshToggles d (stepGear d sMid)) := by
  obtain ⟨s1, he1, hg1, hp1, e1, ht1, hs1⟩ := stepBattery_ok cfg d
    ({ c with speed := d.speed },
      if d.speed ≠ c.speed then [NexCmd.intCmd .SET_SPEED_COMMAND d.speed]
      else []) hb
  obtain ⟨s2, he2, hg2, e2, ht2, hs2⟩ := stepPower_ok cfg d s1
    (Or.imp (fun h => h.trans hp1.symm) id hp)
  obtain ⟨hgM, eM, htM, hsM⟩ := refreshMid_gearSafe d s2
  have hT0 : ∀ x ∈ (if d.speed ≠ c.speed then
      [NexCmd.intCmd NEX_Int_Command_ID.SET_SPEED_COMMAND d.speed] else []),
      ¬ isGearCmd x := by
    split
    · intro x hx
      rw [List.mem_singleton.1 hx]
      simp [isGearCmd]
    · intro x hx
      simp at hx
  refine ⟨refreshMid d s2, ?_, ?_, ?_⟩
  · rw [hgM, hg2, hg1]
  · intro x hx
    rw [htM, ht2, ht1] at hx
    rcases List.mem_append.1 hx with hx | hx
    · rcases List.mem_append.1 hx with hx | hx
      · rcases List.mem_append.1 hx with hx | hx
        · exact hT0 x hx
        · exact hs1 x hx
      · exact hs2 x hx
    · exact hsM x hx
  · show NEX_Refresh cfg d c = _
    unfold NEX_Refresh
    rw [stepSpeed_eval, List.nil_append, he1]
    dsimp only
    rw [he2]

/-- C10 counterexample: the claim quantifies over every refresh call in
which the gear value changed to an unsupported one; but if an earlier
progress-bar block aborts the refresh (here: battery 150 against domain
`[0,100]`), the gear block is never reached, so the gear cache slot is not
updated (it stays 0 although the live gear is 5). -/
theorem C10_counterexample :
    NEX_Refresh ⟨100, 0, 6, 0⟩
      ⟨0, 150, 0, 0, 0, 0, 0, ⟨0, 0, 0, 0⟩, 5, 0, 0, 0, 0, 0, 0⟩
      ⟨0, 0, 0, 0, 0, 0, 0, ⟨0, 0, 0, 0⟩, 0, 0, 0, 0, 0, 0, 0⟩ =
      (.HAL_ERROR, ⟨0, 0, 0, 0, 0, 0, 0, ⟨0, 0, 0, 0⟩, 0, 0, 0, 0, 0, 0, 0⟩,
        [NexCmd.intCmd .SET_BATTERY_NUMBER_COMMAND 150]) := by
  decide

/-- C10 (amended): in every refresh call that reaches the gear block (no
earlier progress-bar block aborts) with a live gear value that differs from
the cache but lies outside `{0, 1, 2}`: no gear command is transmitted,
yet the gear cache slot is updated to the unsupported value — so a later
refresh whose live gear is back to a supported value sees a difference and
does transmit a gear command. -/
theorem C10_unsupported_gear_cache (cfg : NEX_BarConfig) (d : NEX_Data)
    (c : NEX_CachedData)
    (hb : d.batteryValue = c.batteryValue ∨
      (cfg.batteryMin ≤ d.batteryValue ∧ d.batteryValue ≤ cfg.batteryMax))
    (hp : d.powerKW = c.powerKW ∨
      (cfg.kwMin ≤ d.powerKW ∧ d.powerKW ≤ cfg.kwMax))
    (hg : d.gear ≠ c.gear) (h0 : d.gear ≠ 0) (h1 : d.gear ≠ 1)
    (h2 : d.gear ≠ 2) :
    (NEX_Refresh cfg d c).2.1.gear = d.gear ∧
    (∀ x ∈ (NEX_Refresh cfg d c).2.2, ¬ isGearCmd x) ∧
    (∀ d' : NEX_Data,
      d'.batteryValue = (NEX_Refresh cfg d c).2.1.batteryValue ∨
        (cfg.batteryMin ≤ d'.batteryValue ∧ d'.batteryValue ≤ cfg.batteryMax) →
      d'.powerKW = (NEX_Refresh cfg d c).2.1.powerKW ∨
        (cfg.kwMin ≤ d'.powerKW ∧ d'.powerKW ≤ cfg.kwMax) →
      d'.gear = 0 ∨ d'.gear = 1 ∨ d'.gear = 2 →
      ∃ x ∈ (NEX_Refresh cfg d' (NEX_Refresh cfg d c).2.1).2.2, isGearCmd x) := by
  obtain ⟨sMid, hgearMid, hsafeMid, heval⟩ := NEX_Refresh_gear_path cfg d c hb hp
  have hg' : d.gear ≠ sMid.1.gear := by rw [hgearMid]; exact hg
  rw [stepGear_unsupported d sMid hg' h0 h1 h2] at heval
  obtain ⟨hgT, eT, htT, hsT⟩ := refreshToggles_gearSafe d
    ({ sMid.1 with gear := d.gear }, sMid.2)
  have hfinalGear : (NEX_Refresh cfg d c).2.1.gear = d.gear := by
    rw [heval]
    show (refreshToggles d _).1.gear = d.gear
    rw [hgT]
  refine ⟨hfinalGear, ?_, ?_⟩
  · intro x hx
    rw [heval] at hx
    replace hx : x ∈ (refreshToggles d ({ sMid.1 with gear := d.gear },
      sMid.2)).2 := hx
    rw [htT] at hx
    rcases List.mem_append.1 hx with hx | hx
    · exact hsafeMid x hx
    · exact hsT x hx
  · intro d' hb' hp' hsup'
    obtain ⟨sMid', hgearMid', hsafeMid', heval'⟩ :=
      NEX_Refresh_gear_path cfg d' (NEX_Refresh cfg d c).2.1 hb' hp'
    have hg'' : d'.gear ≠ sMid'.1.gear := by
      rw [hgearMid', hfinalGear]
      rcases hsup' with h | h | h <;> rw [h]
      exacts [fun hc => h0 hc.symm, fun hc => h1 hc.symm, fun hc => h2 hc.symm]
    obtain ⟨gcmd, hgcmd, hstep⟩ := stepGear_supported d' sMid' hg'' hsup'
    rw [hstep] at heval'
    obtain ⟨hgT', eT', htT', hsT'⟩ := refreshToggles_gearSafe d'
      ({ sMid'.1 with gear := d'.gear }, sMid'.2 ++ [NexCmd.fixedCmd gcmd])
    refine ⟨NexCmd.fixedCmd gcmd, ?_, hgcmd⟩
    rw [heval']
    show NexCmd.fixedCmd gcmd ∈ (refreshToggles d' _).2
    rw [htT']
    exact List.mem_append_left _
      (List.mem_append_right _ (List.mem_singleton.2 rfl))

/-- C10 witness: the amended theorem at live gear 5 against cache 0 with
battery and power unchanged, followed by a supported gear. -/
theorem C10_unsupported_gear_cache_witness :
    ((5 : Int) ≠ 0 ∧ (5 : Int) ≠ 1 ∧ (5 : Int) ≠ 2) ∧
    (NEX_Refresh ⟨100, 0, 6, 0⟩
      ⟨0, 0, 0, 0, 0, 0, 0, ⟨0, 0, 0, 0⟩, 5, 0, 0, 0, 0, 0, 0⟩
      ⟨0, 0, 0, 0, 0, 0, 0, ⟨0, 0, 0, 0⟩, 0, 0, 0, 0, 0, 0, 0⟩).2.1.gear = 5 :=
  ⟨⟨by decide, by decide, by decide⟩,
    (C10_unsupported_gear_cache ⟨100, 0, 6, 0⟩
      ⟨0, 0, 0, 0, 0, 0, 0, ⟨0, 0, 0, 0⟩, 5, 0, 0, 0, 0, 0, 0⟩
      ⟨0, 0, 0, 0, 0, 0, 0, ⟨0, 0, 0, 0⟩, 0, 0, 0, 0, 0, 0, 0⟩
      (Or.inl rfl) (Or.inl rfl) (by decide) (by decide) (by decide)
      (by decide)).1⟩
